import Mathlib

/-!
Шаллоу-эмбеддинг двух вариантов генератора задач из репозитория
(src/test5.py — простой вариант, src/test7.py — расширенный вариант) и
доказательства свойств конвейера: нормализация полей, извлечение JSON,
мемо-кэш, дедупликация заголовков и пакетный цикл.

Python-значения JSON моделируются индуктивным типом `Json`; словари — это
ассоц-списки с сохранением порядка вставки (как dict в Python). Числа JSON
моделируются целыми (дробные числа в этой программе не встречаются).
`json.loads` моделируется явным парсером `json_loads`; `hashlib.md5`
моделируется тождественным отпечатком строки-ключа (он сохраняет равенство
ключей для равных входов, что и используется кэшем).
-/

set_option maxRecDepth 8192

/-- Значение JSON (модель значений, возвращаемых `json.loads`). -/
inductive Json where
  | null
  | bool (b : Bool)
  | num (n : Int)
  | str (s : String)
  | arr (xs : List Json)
  | obj (kvs : List (String × Json))

mutual

/-- Питоновское `==` на значениях JSON (структурное равенство). -/
def Json.eqb : Json → Json → Bool
  | .null, .null => true
  | .bool x, .bool y => x == y
  | .num x, .num y => x == y
  | .str x, .str y => x == y
  | .arr xs, .arr ys => eqbL xs ys
  | .obj xs, .obj ys => eqbP xs ys
  | _, _ => false

/-- `==` на списках значений JSON. -/
def eqbL : List Json → List Json → Bool
  | [], [] => true
  | x :: xs, y :: ys => Json.eqb x y && eqbL xs ys
  | _, _ => false

/-- `==` на словарях. В Python `dict` сравнивается как отображение, без
учёта порядка вставки; модель сравнивает списки пар позиционно, что
совпадает с питоновским равенством при одинаковом порядке вставки
(единственное место использования — сравнение значений полей `title` и
`description`, которые в программе строковые). -/
def eqbP : List (String × Json) → List (String × Json) → Bool
  | [], [] => true
  | (k, v) :: xs, (k2, v2) :: ys => k == k2 && Json.eqb v v2 && eqbP xs ys
  | _, _ => false

end

mutual

/-- Питоновский `repr()` значения JSON (для элементов контейнеров;
экранирование кавычек внутри строк не моделируется — в программе такой
случай не возникает). -/
def pyRepr : Json → String
  | .str s => "'" ++ s ++ "'"
  | .num i => toString i
  | .bool true => "True"
  | .bool false => "False"
  | .null => "None"
  | .arr xs => "[" ++ pyReprL xs ++ "]"
  | .obj kvs => "\x7b" ++ pyReprP kvs ++ "\x7d"

/-- Элементы списка через запятую, как в `repr(list)`. -/
def pyReprL : List Json → String
  | [] => ""
  | [x] => pyRepr x
  | x :: xs => pyRepr x ++ ", " ++ pyReprL xs

/-- Пары словаря через запятую, как в `repr(dict)`. -/
def pyReprP : List (String × Json) → String
  | [] => ""
  | [(k, v)] => "'" ++ k ++ "': " ++ pyRepr v
  | (k, v) :: xs => "'" ++ k ++ "': " ++ pyRepr v ++ ", " ++ pyReprP xs

end

/-- Питоновский `str()` значения JSON (используется f-строкой
`f"..."` при достройке заголовка в src/test7.py:110): строка
возвращается как есть, остальные значения — как их `repr`. -/
def pyStr : Json → String
  | .str s => s
  | j => pyRepr j

/-- Поиск по ключу в упорядоченном словаре (`d[k]` / `d.get(k)`). -/
def getKey {α : Type} : List (String × α) → String → Option α
  | [], _ => none
  | (k', v) :: rest, k => if k' = k then some v else getKey rest k

/-- Запись по ключу в упорядоченный словарь (`d[k] = v`): существующий ключ
обновляется на месте (сохраняя позицию вставки, как dict), новый — в конец. -/
def setKey {α : Type} : List (String × α) → String → α → List (String × α)
  | [], k, v => [(k, v)]
  | (k', v') :: rest, k, v =>
      if k' = k then (k, v) :: rest else (k', v') :: setKey rest k v

/-- `k in d` для упорядоченного словаря. -/
def hasKey {α : Type} (l : List (String × α)) (k : String) : Bool :=
  (getKey l k).isSome

/-- Пробельные символы, которые убирает питоновский `str.strip()`
(основное ASCII-подмножество; юникодные пробелы в программе не встречаются). -/
def pySpace (c : Char) : Bool :=
  c = ' ' || c = '\t' || c = '\n' || c = '\r' || c = '\x0b' || c = '\x0c'

/-- Питоновский `str.strip()`: убирает пробельные символы с обоих концов. -/
def pyStrip (s : String) : String :=
  String.mk ((s.data.dropWhile pySpace).reverse.dropWhile pySpace).reverse

/-- Питоновский `str.replace(a, b)` для односимвольных `a`, `b`
(в источнике заменяются только одиночные символы `\n` и `\r`). -/
def replaceChar (s : String) (a b : Char) : String :=
  String.mk (s.data.map (fun c => if c = a then b else c))

/-- Очистка строки из src/test7.py:34:
`s.replace('\n', ' ').replace('\r', ' ').strip()`. -/
def cleanLine (s : String) : String :=
  pyStrip (replaceChar (replaceChar s '\n' ' ') '\r' ' ')

/-! ### Модель `json.loads` (стандартная библиотека Python)

Парсер покрывает подмножество JSON, реально возникающее в программе:
объекты, массивы, строки (с основными экранированиями, без `\u`), целые
числа, `true`/`false`/`null`; дробные числа и экзотика не поддерживаются.
Повторяющийся ключ объекта перезаписывает прежний (как в `json.loads`);
лишние данные после значения — ошибка (как в `json.loads`). -/

/-- Пробельные символы JSON. -/
def jsonWs (c : Char) : Bool := c = ' ' || c = '\t' || c = '\n' || c = '\r'

/-- Пропуск пробелов JSON. -/
def skipWs (cs : List Char) : List Char := cs.dropWhile jsonWs

/-- Тело строкового литерала JSON (после открывающей кавычки); возвращает
строку и остаток за закрывающей кавычкой. -/
def parseStringBody : List Char → Option (String × List Char)
  | [] => none
  | '"' :: rest => some ("", rest)
  | '\\' :: e :: rest =>
      let dec : Option Char :=
        if e = '"' then some '"'
        else if e = '\\' then some '\\'
        else if e = '/' then some '/'
        else if e = 'n' then some '\n'
        else if e = 't' then some '\t'
        else if e = 'r' then some '\r'
        else if e = 'b' then some '\x08'
        else if e = 'f' then some '\x0c'
        else none
      match dec with
      | some d =>
          match parseStringBody rest with
          | some (s, rem) => some (String.mk (d :: s.data), rem)
          | none => none
      | none => none
  | '\\' :: [] => none
  | c :: rest =>
      match parseStringBody rest with
      | some (s, rem) => some (String.mk (c :: s.data), rem)
      | none => none

/-- Последовательность десятичных цифр, накапливаемая в значение. -/
def parseDigitsAux : List Char → Nat → Nat × List Char
  | c :: rest, acc =>
      if c.isDigit then parseDigitsAux rest (acc * 10 + (c.toNat - 48))
      else (acc, c :: rest)
  | [], acc => (acc, [])

/-- Режим работы парсера: значение, члены объекта, элементы массива. -/
inductive PMode where
  | value
  | members (acc : List (String × Json))
  | elems (acc : List Json)

/-- Ядро парсера JSON; структурная рекурсия по топливу (каждый шаг рекурсии
сопровождается потреблением хотя бы одного символа, так что топлива
`длина + 1` достаточно). -/
def parseF : Nat → PMode → List Char → Option (Json × List Char)
  | 0, _, _ => none
  | n + 1, .value, cs =>
    match skipWs cs with
    | [] => none
    | c :: rest =>
      if c = '"' then
        match parseStringBody rest with
        | some (s, rem) => some (.str s, rem)
        | none => none
      else if c = '\x7b' then
        match skipWs rest with
        | '\x7d' :: rem2 => some (.obj [], rem2)
        | _ => parseF n (.members []) rest
      else if c = '[' then
        match skipWs rest with
        | ']' :: rem2 => some (.arr [], rem2)
        | _ => parseF n (.elems []) rest
      else if c = 't' then
        match rest with
        | 'r' :: 'u' :: 'e' :: rem2 => some (.bool true, rem2)
        | _ => none
      else if c = 'f' then
        match rest with
        | 'a' :: 'l' :: 's' :: 'e' :: rem2 => some (.bool false, rem2)
        | _ => none
      else if c = 'n' then
        match rest with
        | 'u' :: 'l' :: 'l' :: rem2 => some (.null, rem2)
        | _ => none
      else if c = '-' then
        match rest with
        | d :: _ =>
          if d.isDigit then
            let (v, rem2) := parseDigitsAux rest 0
            match rem2 with
            | e :: _ => if e = '.' || e = 'e' || e = 'E' then none
                        else some (.num (-(Int.ofNat v)), rem2)
            | [] => some (.num (-(Int.ofNat v)), [])
          else none
        | [] => none
      else if c.isDigit then
        let (v, rem2) := parseDigitsAux (c :: rest) 0
        match rem2 with
        | e :: _ => if e = '.' || e = 'e' || e = 'E' then none
                    else some (.num (Int.ofNat v), rem2)
        | [] => some (.num (Int.ofNat v), [])
      else none
  | n + 1, .members acc, cs =>
    match skipWs cs with
    | '"' :: rest =>
      match parseStringBody rest with
      | some (k, rem1) =>
        match skipWs rem1 with
        | ':' :: rem2 =>
          match parseF n .value rem2 with
          | some (v, rem3) =>
            let acc2 := setKey acc k v
            match skipWs rem3 with
            | ',' :: rem4 => parseF n (.members acc2) rem4
            | '\x7d' :: rem4 => some (.obj acc2, rem4)
            | _ => none
          | none => none
        | _ => none
      | none => none
    | _ => none
  | n + 1, .elems acc, cs =>
    match parseF n .value cs with
    | some (v, rem1) =>
      match skipWs rem1 with
      | ',' :: rem2 => parseF n (.elems (acc ++ [v])) rem2
      | ']' :: rem2 => some (.arr (acc ++ [v]), rem2)
      | _ => none
    | none => none

/-- Модель `json.loads`: разбор одного значения, затем только пробелы. -/
def json_loads (s : String) : Except String Json :=
  match parseF (s.data.length + 1) .value s.data with
  | some (j, rem) => if skipWs rem = [] then .ok j else .error "Extra data"
  | none => .error "Expecting value"

example : json_loads "\x7b\"a\": 1, \"b\": \"x\"\x7d" =
    .ok (Json.obj [("a", Json.num 1), ("b", Json.str "x")]) := rfl
example : json_loads "  \x7b\x7d " = .ok (Json.obj []) := rfl
example : json_loads "Here is \x7b\x7d" = .error "Expecting value" := rfl
example : json_loads "\x7b\"a\": [true, null, -5]\x7d" =
    .ok (Json.obj [("a", Json.arr [Json.bool true, Json.null, Json.num (-5)])]) := rfl

/-- Индекс последней `'\x7d'` в списке символов. -/
def lastCloseIdx (cs : List Char) : Option Nat :=
  match cs.reverse.findIdx? (fun c => c = '\x7d') with
  | some r => some (cs.length - 1 - r)
  | none => none

/-- src/test7.py:37-41, `extract_json_from_text`:
`re.search(r'(\x7b.*\x7d)', text, re.DOTALL)` — самый левый жадный матч, то
есть фрагмент от первой открывающей скобки до последней закрывающей во всём
тексте (если первая `'\x7b'` стоит раньше последней `'\x7d'`); иначе текст
возвращается без изменений. -/
def extract_json_from_text (text : String) : String :=
  let cs := text.data
  match cs.findIdx? (fun c => c = '\x7b'), lastCloseIdx cs with
  | some i, some j =>
      if i < j then String.mk ((cs.drop i).take (j + 1 - i)) else text
  | _, _ => text

example : extract_json_from_text "ab \x7b\"t\": 1\x7d tail" = "\x7b\"t\": 1\x7d" := rfl
example : extract_json_from_text "no braces" = "no braces" := rfl

/-- src/test7.py:10. -/
def STATUS_CHOICES : List String := ["new", "in_progress", "completed", "cancelled"]

/-- src/test7.py:11. -/
def PRIORITY_CHOICES : List String := ["low", "medium", "high", "critical"]

/-- Питоновская проверка `d.get(k) in choices` для списка строк-вариантов:
истинна ровно тогда, когда значение есть и является строкой из списка. -/
def inChoices (v : Option Json) (choices : List String) : Bool :=
  match v with
  | some (.str s) => choices.contains s
  | _ => false

/-- Шаг цикла src/test7.py:32-34: если значение по ключу — строка, заменить
переводы строк пробелами и обрезать края. -/
def stripKey (kvs : List (String × Json)) (k : String) : List (String × Json) :=
  match getKey kvs k with
  | some (.str s) => setKey kvs k (.str (cleanLine s))
  | _ => kvs

/-- Тело `normalize_json_result` (src/test7.py:22-35) для случая, когда
ответ — объект: принудительно выставить `role`, `executor`, `author`;
сбросить `status`/`priority` вне перечислений; вычистить переводы строк из
строковых `title`/`description`. -/
def normalizeObj (kvs : List (String × Json)) (student_name role_ru : String) :
    List (String × Json) :=
  let k1 := setKey kvs "role" (.str role_ru)
  let k2 := setKey k1 "executor" (.str student_name)
  let k3 := setKey k2 "author" (.str "AI")
  let k4 := if inChoices (getKey k3 "status") STATUS_CHOICES then k3
            else setKey k3 "status" (.str "new")
  let k5 := if inChoices (getKey k4 "priority") PRIORITY_CHOICES then k4
            else setKey k4 "priority" (.str "medium")
  stripKey (stripKey k5 "title") "description"

/-- src/test7.py:22-35, `normalize_json_result`: не-объект — ошибка
(`ValueError`), объект нормализуется `normalizeObj`. -/
def normalize_json_result (data : Json) (student_name role_ru : String) :
    Except String (List (String × Json)) :=
  match data with
  | .obj kvs => .ok (normalizeObj kvs student_name role_ru)
  | _ => .error ("Ответ не является JSON-объектом для " ++ student_name)

/-- Питоновский срез `s[:n]` по кодовым точкам. -/
def pyTake (s : String) (n : Nat) : String := String.mk (s.data.take n)

/-- src/test7.py:45-48, `cache_key`: ключ кэша строится из первых 1000
символов текста документа, имени студента, роли и модели. `hashlib.md5`
моделируется тождественным отпечатком строки-основы ключа: равенство
ключей для равных основ сохраняется. -/
def cache_key (document_text student_name role_ru model : String) : String :=
  pyTake document_text 1000 ++ "||" ++ student_name ++ "||" ++ role_ru ++ "||" ++ model

/-- Таблица локализации ролей (src/test7.py:180-185 и src/test5.py:222-227):
`role_mapping.get(r, r)`. -/
def role_mapping (r : String) : String :=
  if r = "Analyst" then "Аналитик"
  else if r = "Tester" then "Тестировщик"
  else if r = "Manager" then "Менеджер"
  else if r = "Designer" then "Дизайнер"
  else r

/-- Принадлежность пары (title, description) питоновскому множеству
`used_titles` (моделируется списком без повторов). -/
def pairMem (p : Json × Json) : List (Json × Json) → Bool
  | [] => false
  | q :: rest => (Json.eqb p.1 q.1 && Json.eqb p.2 q.2) || pairMem p rest

/-- `used_titles.add(p)`: множество не меняется, если пара уже есть. -/
def setAdd (s : List (Json × Json)) (p : Json × Json) : List (Json × Json) :=
  if pairMem p s then s else s ++ [p]

namespace Test7

/-- Нормализованная запись задачи — питоновский dict строка → значение. -/
abbrev Record := List (String × Json)

/-- Процессное состояние расширенного варианта: мемо-кэш `CACHE`
(src/test7.py:43) и счётчик фактически выполненных сетевых вызовов
(инструментовка для свойства «повторный вызов не ходит в сеть»). -/
structure Store where
  cache : List (String × Record)
  calls : Nat

/-- src/test7.py:50-113, `generate_task_json` расширенного варианта.

Удалённый вызов модели абстрагирован оракулом `remote`: аргумент — номер
вызова (сколько вызовов уже выполнено), результат — либо извлечённый текст
ответа `choices[0].message.content`, либо ошибка сети/HTTP-статуса
(`raise_for_status`). Построение системного и пользовательского промптов
(src/test7.py:52-79) — чистая сборка строк, уходящих только в сетевой
запрос, и потому поглощена оракулом.

Порядок шагов источника: ключ кэша и возврат из кэша до сетевого вызова;
`.strip()` текста ответа; извлечение фрагмента в фигурных скобках;
`json.loads`; `normalize_json_result`; при переданном `used_titles` —
дедупликация заголовка (обращения `data["title"]`/`data["description"]`
бросают `KeyError` при отсутствии ключа); запись в кэш; возврат записи. -/
def generate_task_json (remote : Nat → Except String String)
    (document_text student_name role_ru api_key model : String)
    (used_titles : Option (List (Json × Json))) (st : Store) :
    Except String Record × Option (List (Json × Json)) × Store :=
  let key := cache_key document_text student_name role_ru model
  match getKey st.cache key with
  | some rec => (.ok rec, used_titles, st)
  | none =>
    match remote st.calls with
    | .error e => (.error e, used_titles, ⟨st.cache, st.calls + 1⟩)
    | .ok content =>
      let st1 : Store := ⟨st.cache, st.calls + 1⟩
      let raw_text := pyStrip content
      let raw_json := extract_json_from_text raw_text
      match json_loads raw_json with
      | .error e =>
          (.error ("Ошибка JSON для " ++ student_name ++ ":\n" ++ raw_text ++
                   "\nОшибка: " ++ e), used_titles, st1)
      | .ok data =>
        match normalize_json_result data student_name role_ru with
        | .error e => (.error e, used_titles, st1)
        | .ok kvs =>
          match used_titles with
          | none => (.ok kvs, none, ⟨setKey st1.cache key kvs, st1.calls⟩)
          | some used0 =>
            match getKey kvs "title" with
            | none => (.error "KeyError: 'title'", some used0, st1)
            | some tj =>
              match getKey kvs "description" with
              | none => (.error "KeyError: 'description'", some used0, st1)
              | some dj =>
                let step :=
                  if pairMem (tj, dj) used0 then
                    let t2 := Json.str (pyStr tj ++ " [" ++ role_ru ++ "]")
                    (setKey kvs "title" t2, t2)
                  else (kvs, tj)
                let used1 := setAdd used0 (step.2, dj)
                (.ok step.1, some used1, ⟨setKey st1.cache key step.1, st1.calls⟩)

/-- Пакетный цикл src/test7.py:193-208: по строкам реестра в порядке
следования; успех добавляется в `results`, исключение — строкой в `errors`
(сбой одного студента не прерывает пакет). Студент задаётся парой
(student_name, role_ru) — колонка `role_ru` уже вычислена к началу цикла. -/
def runBatch (remote : Nat → Except String String)
    (document_text : String) (students : List (String × String))
    (api_key model : String) (used : List (Json × Json)) (st : Store) :
    List Record × List String × List (Json × Json) × Store :=
  match students with
  | [] => ([], [], used, st)
  | (n0, r0) :: rest =>
    let student_name := pyStrip n0
    let role_ru := pyStrip r0
    match generate_task_json remote document_text student_name role_ru
        api_key model (some used) st with
    | (.ok rec, used1, st1) =>
        let (results, errors, used2, st2) :=
          runBatch remote document_text rest api_key model
            (used1.getD used) st1
        (rec :: results, errors, used2, st2)
    | (.error e, used1, st1) =>
        let (results, errors, used2, st2) :=
          runBatch remote document_text rest api_key model
            (used1.getD used) st1
        (results, (student_name ++ " (" ++ role_ru ++ "): " ++ e) :: errors,
         used2, st2)

/-- Последовательность исходов цикла: по одному исходу на строку реестра,
в порядке реестра (`.ok` — запись, `.error` — готовая строка ошибки). -/
def batchOutcomes (remote : Nat → Except String String)
    (document_text : String) (students : List (String × String))
    (api_key model : String) (used : List (Json × Json)) (st : Store) :
    List (Except String Record) :=
  match students with
  | [] => []
  | (n0, r0) :: rest =>
    let student_name := pyStrip n0
    let role_ru := pyStrip r0
    match generate_task_json remote document_text student_name role_ru
        api_key model (some used) st with
    | (.ok rec, used1, st1) =>
        .ok rec ::
          batchOutcomes remote document_text rest api_key model
            (used1.getD used) st1
    | (.error e, used1, st1) =>
        .error (student_name ++ " (" ++ role_ru ++ "): " ++ e) ::
          batchOutcomes remote document_text rest api_key model
            (used1.getD used) st1

end Test7

namespace Test5

/-- src/test5.py:30-106, `generate_task_json` простого варианта: пустой
API-ключ — ошибка до сетевого вызова; ответ обязан быть голым JSON
(без извлечения по скобкам); после разбора проверяется наличие шести
обязательных полей; запись возвращается без изменений. Не-объект падает на
`data.keys()` (`AttributeError`, моделируется ошибкой). Оракул `remote` — как
в расширенном варианте; второй компонент результата — счётчик сетевых
вызовов. -/
def generate_task_json (remote : Nat → Except String String)
    (document_text student_name role_ru api_key model : String)
    (calls : Nat) : Except String Json × Nat :=
  if api_key = "" then (.error "API-ключ Mistral не задан.", calls)
  else
    match remote calls with
    | .error e => (.error e, calls + 1)
    | .ok content =>
      let raw_text := pyStrip content
      match json_loads raw_text with
      | .error e =>
          (.error ("Не удалось распарсить JSON от LLM для " ++ student_name ++
                   ":\n" ++ raw_text ++ "\nОшибка: " ++ e), calls + 1)
      | .ok data =>
        match data with
        | .obj kvs =>
          if ["title", "description", "status", "role", "executor",
              "author"].all (fun k => hasKey kvs k) then
            (.ok (.obj kvs), calls + 1)
          else
            (.error ("В JSON для " ++ student_name ++
                     " отсутствуют обязательные поля:\n" ++ raw_text), calls + 1)
        | _ => (.error ("AttributeError: keys для " ++ student_name), calls + 1)

/-- Пакетный цикл src/test5.py:239-256 (без кэша и дедупликации). -/
def runBatch (remote : Nat → Except String String)
    (document_text : String) (students : List (String × String))
    (api_key model : String) (calls : Nat) :
    List Json × List String × Nat :=
  match students with
  | [] => ([], [], calls)
  | (n0, r0) :: rest =>
    let student_name := pyStrip n0
    let role_ru := pyStrip r0
    match generate_task_json remote document_text student_name role_ru
        api_key model calls with
    | (.ok rec, c1) =>
        let (results, errors, c2) :=
          runBatch remote document_text rest api_key model c1
        (rec :: results, errors, c2)
    | (.error e, c1) =>
        let (results, errors, c2) :=
          runBatch remote document_text rest api_key model c1
        (results, (student_name ++ " (" ++ role_ru ++ "): " ++ e) :: errors, c2)

/-- Последовательность исходов цикла простого варианта. -/
def batchOutcomes (remote : Nat → Except String String)
    (document_text : String) (students : List (String × String))
    (api_key model : String) (calls : Nat) : List (Except String Json) :=
  match students with
  | [] => []
  | (n0, r0) :: rest =>
    let student_name := pyStrip n0
    let role_ru := pyStrip r0
    match generate_task_json remote document_text student_name role_ru
        api_key model calls with
    | (.ok rec, c1) =>
        .ok rec :: batchOutcomes remote document_text rest api_key model c1
    | (.error e, c1) =>
        .error (student_name ++ " (" ++ role_ru ++ "): " ++ e) ::
          batchOutcomes remote document_text rest api_key model c1

end Test5

/-! ### Вспомогательные леммы -/

theorem getKey_setKey_self {α : Type} (l : List (String × α)) (k : String) (v : α) :
    getKey (setKey l k v) k = some v := by
  induction l with
  | nil => simp [setKey, getKey]
  | cons p rest ih =>
    obtain ⟨k', v'⟩ := p
    by_cases h : k' = k
    · simp [setKey, getKey, h]
    · simp [setKey, getKey, h, ih]

theorem getKey_setKey_ne {α : Type} (l : List (String × α)) (k' k : String) (v : α)
    (hne : k' ≠ k) : getKey (setKey l k' v) k = getKey l k := by
  induction l with
  | nil => simp [setKey, getKey, hne]
  | cons p rest ih =>
    obtain ⟨k0, v0⟩ := p
    by_cases h : k0 = k'
    · subst h
      simp [setKey, getKey, hne]
    · by_cases h2 : k0 = k
      · simp [setKey, getKey, h, h2, hne, Ne.symm hne]
      · simp [setKey, getKey, h, h2, ih]

theorem hasKey_setKey_self {α : Type} (l : List (String × α)) (k : String) (v : α) :
    hasKey (setKey l k v) k = true := by
  simp [hasKey, getKey_setKey_self]

theorem hasKey_setKey_of {α : Type} (l : List (String × α)) (k' k : String) (v : α)
    (h : hasKey l k = true) : hasKey (setKey l k' v) k = true := by
  by_cases he : k' = k
  · subst he; simp [hasKey, getKey_setKey_self]
  · simpa [hasKey, getKey_setKey_ne l k' k v he] using h

def mapStr (f : String → String) : Option Json → Option Json
  | some (.str s) => some (.str (f s))
  | o => o

theorem getKey_stripKey_ne (l : List (String × Json)) (k' k : String)
    (hne : k' ≠ k) : getKey (stripKey l k') k = getKey l k := by
  unfold stripKey
  split
  · exact getKey_setKey_ne l k' k _ hne
  · rfl

theorem getKey_stripKey_self (l : List (String × Json)) (k : String) :
    getKey (stripKey l k) k = mapStr cleanLine (getKey l k) := by
  unfold stripKey
  split
  · next s heq => rw [getKey_setKey_self, heq]; rfl
  · next hno =>
      match hv : getKey l k with
      | none => rfl
      | some (.str s) => exact (hno s hv).elim
      | some .null => rfl
      | some (.bool b) => rfl
      | some (.num i) => rfl
      | some (.arr xs) => rfl
      | some (.obj kv) => rfl

theorem hasKey_stripKey_of (l : List (String × Json)) (k' k : String)
    (h : hasKey l k = true) : hasKey (stripKey l k') k = true := by
  by_cases he : k' = k
  · subst he
    simp only [hasKey, getKey_stripKey_self l k']
    simp only [hasKey] at h
    match hv : getKey l k' with
    | none => rw [hv] at h; simp at h
    | some (.str s) => rfl
    | some .null => rfl
    | some (.bool b) => rfl
    | some (.num i) => rfl
    | some (.arr xs) => rfl
    | some (.obj kv) => rfl
  · have h2 := getKey_stripKey_ne l k' k he
    simp only [hasKey, h2]
    simpa [hasKey] using h

theorem getKey_ite {α : Type} (c : Prop) [Decidable c] (a b : List (String × α))
    (k : String) :
    getKey (if c then a else b) k = if c then getKey a k else getKey b k :=
  apply_ite (fun l => getKey l k) c a b

theorem normalizeObj_role (kvs : List (String × Json)) (n r : String) :
    getKey (normalizeObj kvs n r) "role" = some (.str r) := by
  simp [normalizeObj, getKey_ite, getKey_setKey_ne, getKey_setKey_self,
    getKey_stripKey_ne, getKey_stripKey_self]

theorem normalizeObj_executor (kvs : List (String × Json)) (n r : String) :
    getKey (normalizeObj kvs n r) "executor" = some (.str n) := by
  simp [normalizeObj, getKey_ite, getKey_setKey_ne, getKey_setKey_self,
    getKey_stripKey_ne, getKey_stripKey_self]

theorem normalizeObj_author (kvs : List (String × Json)) (n r : String) :
    getKey (normalizeObj kvs n r) "author" = some (.str "AI") := by
  simp [normalizeObj, getKey_ite, getKey_setKey_ne, getKey_setKey_self,
    getKey_stripKey_ne, getKey_stripKey_self]

theorem normalizeObj_status (kvs : List (String × Json)) (n r : String) :
    getKey (normalizeObj kvs n r) "status" =
      if inChoices (getKey kvs "status") STATUS_CHOICES then getKey kvs "status"
      else some (.str "new") := by
  simp [normalizeObj, getKey_ite, getKey_setKey_ne, getKey_setKey_self,
    getKey_stripKey_ne, getKey_stripKey_self]

theorem normalizeObj_priority (kvs : List (String × Json)) (n r : String) :
    getKey (normalizeObj kvs n r) "priority" =
      if inChoices (getKey kvs "priority") PRIORITY_CHOICES then getKey kvs "priority"
      else some (.str "medium") := by
  simp [normalizeObj, getKey_ite, getKey_setKey_ne, getKey_setKey_self,
    getKey_stripKey_ne, getKey_stripKey_self]

theorem normalizeObj_title (kvs : List (String × Json)) (n r : String) :
    getKey (normalizeObj kvs n r) "title" = mapStr cleanLine (getKey kvs "title") := by
  simp [normalizeObj, getKey_ite, getKey_setKey_ne, getKey_setKey_self,
    getKey_stripKey_ne, getKey_stripKey_self]

theorem normalizeObj_description (kvs : List (String × Json)) (n r : String) :
    getKey (normalizeObj kvs n r) "description" =
      mapStr cleanLine (getKey kvs "description") := by
  simp [normalizeObj, getKey_ite, getKey_setKey_ne, getKey_setKey_self,
    getKey_stripKey_ne, getKey_stripKey_self]

theorem mem_pyStrip {c : Char} {s : String} (h : c ∈ (pyStrip s).data) :
    c ∈ s.data := by
  simp only [pyStrip] at h
  rw [List.mem_reverse] at h
  have h2 := List.Sublist.mem h (List.dropWhile_sublist _)
  rw [List.mem_reverse] at h2
  exact List.Sublist.mem h2 (List.dropWhile_sublist _)

theorem mem_replaceChar {c : Char} {s : String} {a b : Char}
    (h : c ∈ (replaceChar s a b).data) : c = b ∨ (c ∈ s.data ∧ c ≠ a) := by
  simp only [replaceChar] at h
  rw [List.mem_map] at h
  obtain ⟨y, hy, he⟩ := h
  by_cases hya : y = a
  · subst hya; simp at he; exact Or.inl he.symm
  · simp [hya] at he; subst he; exact Or.inr ⟨hy, hya⟩

theorem cleanLine_no_newline (s : String) :
    '\n' ∉ (cleanLine s).data ∧ '\r' ∉ (cleanLine s).data := by
  constructor
  · intro h
    have h1 := mem_pyStrip h
    rcases mem_replaceChar h1 with h2 | ⟨h2, _⟩
    · exact absurd h2 (by decide)
    · rcases mem_replaceChar h2 with h3 | ⟨_, h3⟩
      · exact absurd h3 (by decide)
      · exact h3 rfl
  · intro h
    have h1 := mem_pyStrip h
    rcases mem_replaceChar h1 with h2 | ⟨h2, hne⟩
    · exact absurd h2 (by decide)
    · exact hne rfl

theorem inChoices_eq_true {v : Option Json} {C : List String}
    (h : inChoices v C = true) :
    ∃ s, v = some (Json.str s) ∧ C.contains s = true := by
  match v with
  | some (.str s) => exact ⟨s, rfl, h⟩
  | none => simp [inChoices] at h
  | some .null => simp [inChoices] at h
  | some (.bool b) => simp [inChoices] at h
  | some (.num i) => simp [inChoices] at h
  | some (.arr xs) => simp [inChoices] at h
  | some (.obj kv) => simp [inChoices] at h

theorem normalizeObj_status_mem (kvs : List (String × Json)) (n r : String) :
    ∃ s, getKey (normalizeObj kvs n r) "status" = some (Json.str s) ∧
      STATUS_CHOICES.contains s = true := by
  rw [normalizeObj_status]
  by_cases hc : inChoices (getKey kvs "status") STATUS_CHOICES = true
  · obtain ⟨s, hv, hcont⟩ := inChoices_eq_true hc
    exact ⟨s, by rw [if_pos hc, hv], hcont⟩
  · exact ⟨"new", by rw [if_neg hc], by decide⟩

theorem normalizeObj_priority_mem (kvs : List (String × Json)) (n r : String) :
    ∃ s, getKey (normalizeObj kvs n r) "priority" = some (Json.str s) ∧
      PRIORITY_CHOICES.contains s = true := by
  rw [normalizeObj_priority]
  by_cases hc : inChoices (getKey kvs "priority") PRIORITY_CHOICES = true
  · obtain ⟨s, hv, hcont⟩ := inChoices_eq_true hc
    exact ⟨s, by rw [if_pos hc, hv], hcont⟩
  · exact ⟨"medium", by rw [if_neg hc], by decide⟩

namespace Test7

theorem generate_cache_hit (remote : Nat → Except String String)
    (doc n r k m : String) (used : Option (List (Json × Json))) (st : Store)
    (rec : Record) (h : getKey st.cache (cache_key doc n r m) = some rec) :
    generate_task_json remote doc n r k m used st = (.ok rec, used, st) := by
  simp only [generate_task_json, h]

theorem generate_ok_cache (remote : Nat → Except String String)
    (doc n r k m : String) (used used' : Option (List (Json × Json)))
    (st st' : Store) (rec : Record)
    (h : generate_task_json remote doc n r k m used st = (.ok rec, used', st')) :
    getKey st'.cache (cache_key doc n r m) = some rec := by
  simp only [generate_task_json] at h
  repeat' split at h
  all_goals simp only [Prod.mk.injEq, Except.ok.injEq] at h
  all_goals try exact absurd h.1 (by simp)
  all_goals obtain ⟨h1, h2, h3⟩ := h
  all_goals subst h3
  all_goals subst h1
  · next heq => exact heq
  · exact getKey_setKey_self _ _ _
  · exact getKey_setKey_self _ _ _
  · exact getKey_setKey_self _ _ _


theorem generate_fresh_not_mem (remote : Nat → Except String String)
    (doc n r k m : String) (used0 : List (Json × Json)) (st : Store)
    (a : String) (j : Json) (kvs : Record) (tj dj : Json)
    (hc : getKey st.cache (cache_key doc n r m) = none)
    (hr : remote st.calls = .ok a)
    (hp : json_loads (extract_json_from_text (pyStrip a)) = .ok j)
    (hn : normalize_json_result j n r = .ok kvs)
    (ht : getKey kvs "title" = some tj)
    (hd : getKey kvs "description" = some dj)
    (hm : pairMem (tj, dj) used0 = false) :
    generate_task_json remote doc n r k m (some used0) st =
      (.ok kvs, some (used0 ++ [(tj, dj)]),
       ⟨setKey st.cache (cache_key doc n r m) kvs, st.calls + 1⟩) := by
  simp [generate_task_json, hc, hr, hp, hn, ht, hd, hm, setAdd]

theorem generate_fresh_mem (remote : Nat → Except String String)
    (doc n r k m : String) (used0 : List (Json × Json)) (st : Store)
    (a : String) (j : Json) (kvs : Record) (tj dj : Json)
    (hc : getKey st.cache (cache_key doc n r m) = none)
    (hr : remote st.calls = .ok a)
    (hp : json_loads (extract_json_from_text (pyStrip a)) = .ok j)
    (hn : normalize_json_result j n r = .ok kvs)
    (ht : getKey kvs "title" = some tj)
    (hd : getKey kvs "description" = some dj)
    (hm : pairMem (tj, dj) used0 = true) :
    generate_task_json remote doc n r k m (some used0) st =
      (.ok (setKey kvs "title" (Json.str (pyStr tj ++ " [" ++ r ++ "]"))),
       some (setAdd used0 (Json.str (pyStr tj ++ " [" ++ r ++ "]"), dj)),
       ⟨setKey st.cache (cache_key doc n r m)
          (setKey kvs "title" (Json.str (pyStr tj ++ " [" ++ r ++ "]"))),
        st.calls + 1⟩) := by
  simp [generate_task_json, hc, hr, hp, hn, ht, hd, hm]

theorem normalize_ok_inv (d : Json) (n r : String) (kvs : Record)
    (h : normalize_json_result d n r = .ok kvs) :
    ∃ kvs0, d = .obj kvs0 ∧ kvs = normalizeObj kvs0 n r := by
  cases d <;> simp [normalize_json_result] at h
  next kvs0 => exact ⟨kvs0, rfl, h.symm⟩

theorem normalizeObj_hasKeys (kvs0 : List (String × Json)) (n r : String) :
    hasKey (normalizeObj kvs0 n r) "role" = true ∧
    hasKey (normalizeObj kvs0 n r) "executor" = true ∧
    hasKey (normalizeObj kvs0 n r) "author" = true ∧
    hasKey (normalizeObj kvs0 n r) "status" = true ∧
    hasKey (normalizeObj kvs0 n r) "priority" = true := by
  obtain ⟨s1, hs1, _⟩ := normalizeObj_status_mem kvs0 n r
  obtain ⟨s2, hs2, _⟩ := normalizeObj_priority_mem kvs0 n r
  refine ⟨?_, ?_, ?_, ?_, ?_⟩
  · simp [hasKey, normalizeObj_role]
  · simp [hasKey, normalizeObj_executor]
  · simp [hasKey, normalizeObj_author]
  · simp [hasKey, hs1]
  · simp [hasKey, hs2]

theorem normalize_ok_hasKeys (d : Json) (n r : String) (kvs : Record)
    (h : normalize_json_result d n r = .ok kvs) :
    hasKey kvs "role" = true ∧ hasKey kvs "executor" = true ∧
    hasKey kvs "author" = true ∧ hasKey kvs "status" = true ∧
    hasKey kvs "priority" = true := by
  obtain ⟨kvs0, _, hkv⟩ := normalize_ok_inv d n r kvs h
  subst hkv
  exact normalizeObj_hasKeys kvs0 n r

theorem generate_some_ok_inv (remote : Nat → Except String String)
    (doc n r k m : String) (used0 : List (Json × Json))
    (used' : Option (List (Json × Json))) (st st' : Store) (rec : Record)
    (hc : getKey st.cache (cache_key doc n r m) = none)
    (h : generate_task_json remote doc n r k m (some used0) st =
      (.ok rec, used', st')) :
    ∃ a j kvs tj dj, remote st.calls = .ok a ∧
      json_loads (extract_json_from_text (pyStrip a)) = .ok j ∧
      normalize_json_result j n r = .ok kvs ∧
      getKey kvs "title" = some tj ∧ getKey kvs "description" = some dj ∧
      ((pairMem (tj, dj) used0 = false ∧ rec = kvs) ∨
       (pairMem (tj, dj) used0 = true ∧
        rec = setKey kvs "title" (Json.str (pyStr tj ++ " [" ++ r ++ "]")))) := by
  simp only [generate_task_json, hc] at h
  repeat' split at h
  all_goals simp only [Prod.mk.injEq, Except.ok.injEq] at h
  all_goals try exact absurd h.1 (by simp)
  all_goals obtain ⟨h1, h2, h3⟩ := h
  all_goals subst h1
  · exact ⟨_, _, _, _, _, by assumption, by assumption, by assumption,
      by assumption, by assumption, Or.inr ⟨by assumption, rfl⟩⟩
  · refine ⟨_, _, _, _, _, by assumption, by assumption, by assumption,
      by assumption, by assumption, Or.inl ⟨?_, rfl⟩⟩
    rename_i hmem
    simpa using hmem

theorem generate_ok_keys (remote : Nat → Except String String)
    (doc n r k m : String) (used0 : List (Json × Json))
    (used' : Option (List (Json × Json))) (st st' : Store) (rec : Record)
    (hc : getKey st.cache (cache_key doc n r m) = none)
    (h : generate_task_json remote doc n r k m (some used0) st =
      (.ok rec, used', st')) :
    hasKey rec "title" = true ∧ hasKey rec "description" = true ∧
    hasKey rec "status" = true ∧ hasKey rec "priority" = true ∧
    hasKey rec "role" = true ∧ hasKey rec "executor" = true ∧
    hasKey rec "author" = true := by
  obtain ⟨a, j, kvs, tj, dj, hr, hp, hn, ht, hd, hcase⟩ :=
    generate_some_ok_inv remote doc n r k m used0 used' st st' rec hc h
  obtain ⟨q1, q2, q3, q4, q5⟩ := normalize_ok_hasKeys j n r kvs hn
  rcases hcase with ⟨_, hrec⟩ | ⟨_, hrec⟩ <;> subst hrec
  · exact ⟨by simp [hasKey, ht], by simp [hasKey, hd], q4, q5, q1, q2, q3⟩
  · exact ⟨hasKey_setKey_self _ _ _,
      hasKey_setKey_of _ _ _ _ (by simp [hasKey, hd]),
      hasKey_setKey_of _ _ _ _ q4,
      hasKey_setKey_of _ _ _ _ q5,
      hasKey_setKey_of _ _ _ _ q1,
      hasKey_setKey_of _ _ _ _ q2,
      hasKey_setKey_of _ _ _ _ q3⟩

end Test7

theorem eqb_str (a b : String) : Json.eqb (.str a) (.str b) = (a == b) := rfl

theorem title_suffix_ne (t r : String) : t ≠ t ++ " [" ++ r ++ "]" := by
  intro h
  have hl := congrArg String.length h
  rw [String.length_append, String.length_append, String.length_append] at hl
  have h2 : (" [" : String).length = 2 := rfl
  have h3 : ("]" : String).length = 1 := rfl
  omega

namespace Test5

theorem generate_ok_inv (remote : Nat → Except String String)
    (doc n r k m : String) (calls c2 : Nat) (j : Json)
    (h : generate_task_json remote doc n r k m calls = (.ok j, c2)) :
    ∃ raw kvs, remote calls = .ok raw ∧
      json_loads (pyStrip raw) = .ok (.obj kvs) ∧ j = .obj kvs ∧
      (["title", "description", "status", "role", "executor",
        "author"].all (fun x => hasKey kvs x)) = true ∧
      c2 = calls + 1 := by
  simp only [generate_task_json] at h
  repeat' split at h
  all_goals simp only [Prod.mk.injEq, Except.ok.injEq] at h
  all_goals try exact absurd h.1 (by simp)
  · obtain ⟨h1, h2⟩ := h
    subst h1
    exact ⟨_, _, by assumption, by assumption, rfl, by assumption, h2.symm⟩

end Test5

def okOf {ε α : Type} : Except ε α → Option α
  | .ok a => some a
  | .error _ => none

def errOf {ε α : Type} : Except ε α → Option ε
  | .error e => some e
  | .ok _ => none

theorem length_filterMap_ok_err {ε α : Type} (l : List (Except ε α)) :
    (l.filterMap okOf).length + (l.filterMap errOf).length = l.length := by
  induction l with
  | nil => simp
  | cons x rest ih =>
      cases x <;> simp [okOf, errOf, List.filterMap_cons] <;> omega

namespace Test7

theorem runBatch_eq_outcomes (remote : Nat → Except String String)
    (doc : String) (students : List (String × String)) (k m : String)
    (used : List (Json × Json)) (st : Store) :
    (runBatch remote doc students k m used st).1 =
      (batchOutcomes remote doc students k m used st).filterMap okOf ∧
    (runBatch remote doc students k m used st).2.1 =
      (batchOutcomes remote doc students k m used st).filterMap errOf := by
  induction students generalizing used st with
  | nil => simp [runBatch, batchOutcomes]
  | cons p rest ih =>
      obtain ⟨n0, r0⟩ := p
      simp only [runBatch, batchOutcomes]
      split
      · next rec used1 st1 heq =>
          simp [List.filterMap_cons, okOf, errOf, ih]
      · next e used1 st1 heq =>
          simp [List.filterMap_cons, okOf, errOf, ih]

theorem batchOutcomes_length (remote : Nat → Except String String)
    (doc : String) (students : List (String × String)) (k m : String)
    (used : List (Json × Json)) (st : Store) :
    (batchOutcomes remote doc students k m used st).length = students.length := by
  induction students generalizing used st with
  | nil => simp [batchOutcomes]
  | cons p rest ih =>
      obtain ⟨n0, r0⟩ := p
      simp only [batchOutcomes]
      split <;> simp [ih]

end Test7

namespace Test5

theorem runBatch_eq_outcomes5 (remote : Nat → Except String String)
    (doc : String) (students : List (String × String)) (k m : String)
    (calls : Nat) :
    (runBatch remote doc students k m calls).1 =
      (batchOutcomes remote doc students k m calls).filterMap okOf ∧
    (runBatch remote doc students k m calls).2.1 =
      (batchOutcomes remote doc students k m calls).filterMap errOf := by
  induction students generalizing calls with
  | nil => simp [runBatch, batchOutcomes]
  | cons p rest ih =>
      obtain ⟨n0, r0⟩ := p
      simp only [runBatch, batchOutcomes]
      split
      · next rec c1 heq => simp [List.filterMap_cons, okOf, errOf, ih]
      · next e c1 heq => simp [List.filterMap_cons, okOf, errOf, ih]

theorem batchOutcomes_length5 (remote : Nat → Except String String)
    (doc : String) (students : List (String × String)) (k m : String)
    (calls : Nat) :
    (batchOutcomes remote doc students k m calls).length = students.length := by
  induction students generalizing calls with
  | nil => simp [batchOutcomes]
  | cons p rest ih =>
      obtain ⟨n0, r0⟩ := p
      simp only [batchOutcomes]
      split <;> simp [ih]

end Test5

/-! ### Конкретные данные для свидетельств -/

/-- Ответ модели: голый JSON с двумя полями (для C1). -/
def sampleAnswerTD : String := "\x7b\"title\":\"T\",\"description\":\"D\"\x7d"

/-- Нормализованная запись для `sampleAnswerTD` при студенте N / роли R. -/
def recTD : Test7.Record :=
  [("title", Json.str "T"), ("description", Json.str "D"),
   ("role", Json.str "R"), ("executor", Json.str "N"),
   ("author", Json.str "AI"), ("status", Json.str "new"),
   ("priority", Json.str "medium")]

/-- Пример из спецификации: JSON-объект, окружённый прозой (для C4). -/
def proseAnswer : String :=
  "Here is the task:\n\x7b\"title\":\"X\",\"description\":\"Y\"\x7d\nThanks"

/-- Вложенный объект из `proseAnswer`. -/
def proseObject : String := "\x7b\"title\":\"X\",\"description\":\"Y\"\x7d"

/-- Нормализованная запись для `proseAnswer` (студент Иван, роль Аналитик). -/
def recXY : Test7.Record :=
  [("title", Json.str "X"), ("description", Json.str "Y"),
   ("role", Json.str "Аналитик"), ("executor", Json.str "Иван"),
   ("author", Json.str "AI"), ("status", Json.str "new"),
   ("priority", Json.str "medium")]

/-- Ответ модели со всеми шестью полями и статусом "Done" (для C8, C9). -/
def fullAnswerDone : String :=
  "\x7b\"title\":\"T\",\"description\":\"D\",\"status\":\"Done\",\"role\":\"R\",\"executor\":\"E\",\"author\":\"A\"\x7d"

/-- Разобранный `fullAnswerDone` (как его возвращает простой вариант). -/
def objDone : Json :=
  Json.obj [("title", Json.str "T"), ("description", Json.str "D"),
    ("status", Json.str "Done"), ("role", Json.str "R"),
    ("executor", Json.str "E"), ("author", Json.str "A")]

/-- Запись расширенного варианта для `fullAnswerDone` (N / R). -/
def rec7Done : Test7.Record :=
  [("title", Json.str "T"), ("description", Json.str "D"),
   ("status", Json.str "new"), ("role", Json.str "R"),
   ("executor", Json.str "N"), ("author", Json.str "AI"),
   ("priority", Json.str "medium")]

/-- Запись расширенного варианта при `used_titles = None` и ответе `\x7b\x7d`:
title и description отсутствуют (для C8). -/
def recND : Test7.Record :=
  [("role", Json.str "R"), ("executor", Json.str "N"),
   ("author", Json.str "AI"), ("status", Json.str "new"),
   ("priority", Json.str "medium")]

/-- Одинаковый ответ модели для двух студентов (для C5). -/
def dupAnswer : String :=
  "\x7b\"title\":\"Собрать требования\",\"description\":\"Опис\"\x7d"

/-- Разобранный `dupAnswer`. -/
def dupJson : Json :=
  Json.obj [("title", Json.str "Собрать требования"),
    ("description", Json.str "Опис")]

/-- Нормализованная запись первого студента (Иван / Аналитик) для C5. -/
def dupRec1 : Test7.Record :=
  [("title", Json.str "Собрать требования"), ("description", Json.str "Опис"),
   ("role", Json.str "Аналитик"), ("executor", Json.str "Иван"),
   ("author", Json.str "AI"), ("status", Json.str "new"),
   ("priority", Json.str "medium")]

/-- Нормализованная запись второго студента (Мария / Тестировщик) для C5,
до дедупликации заголовка. -/
def dupRec2 : Test7.Record :=
  [("title", Json.str "Собрать требования"), ("description", Json.str "Опис"),
   ("role", Json.str "Тестировщик"), ("executor", Json.str "Мария"),
   ("author", Json.str "AI"), ("status", Json.str "new"),
   ("priority", Json.str "medium")]

/-- Результат нормализации для witness C2. -/
def outC2 : List (String × Json) :=
  [("executor", Json.str "Иван Иванов"), ("role", Json.str "Аналитик"),
   ("author", Json.str "AI"), ("status", Json.str "new"),
   ("priority", Json.str "medium")]

/-- Результат нормализации для witness C6. -/
def outC6 : List (String × Json) :=
  [("status", Json.str "new"), ("priority", Json.str "medium"),
   ("role", Json.str "R"), ("executor", Json.str "N"),
   ("author", Json.str "AI")]

/-- Результат нормализации для witness C7. -/
def outC7 : List (String × Json) :=
  [("title", Json.str "a b"), ("description", Json.str "c  d"),
   ("role", Json.str "R"), ("executor", Json.str "N"),
   ("author", Json.str "AI"), ("status", Json.str "new"),
   ("priority", Json.str "medium")]

/-! ### Теоремы по пунктам спецификации -/

/-- C1: в расширенном варианте при двух вызовах генератора с одинаковыми
первыми 1000 символами текста документа, именем студента, ролью и моделью,
если первый вызов вернул запись, то второй возвращает равную ей запись и
не меняет состояние: кэш и счётчик сетевых вызовов остаются прежними, то
есть повторный сетевой вызов не выполняется (попадание в кэш). -/
theorem C1_second_call_cached (remote : Nat → Except String String)
    (doc1 doc2 n r k1 k2 m : String)
    (used1 used2 used' : Option (List (Json × Json)))
    (st st1 : Test7.Store) (rec : Test7.Record)
    (hpre : pyTake doc1 1000 = pyTake doc2 1000)
    (h1 : Test7.generate_task_json remote doc1 n r k1 m used1 st =
      (.ok rec, used', st1)) :
    Test7.generate_task_json remote doc2 n r k2 m used2 st1 =
      (.ok rec, used2, st1) := by
  have hkey : cache_key doc2 n r m = cache_key doc1 n r m := by
    unfold cache_key
    rw [hpre]
  have hcc := Test7.generate_ok_cache remote doc1 n r k1 m used1 used' st st1 rec h1
  exact Test7.generate_cache_hit remote doc2 n r k2 m used2 st1 rec
    (by rw [hkey]; exact hcc)

/-- Свидетельство C1 на конкретном входе: первый вызов выполняет сетевой
запрос и кэширует запись, второй возвращает её без изменения состояния. -/
theorem C1_witness :
    Test7.generate_task_json (fun i => .ok sampleAnswerTD) "d" "N" "R" "k" "m"
        (some []) ⟨[], 0⟩ =
      (.ok recTD, some [(Json.str "T", Json.str "D")],
       ⟨[("d||N||R||m", recTD)], 1⟩) ∧
    Test7.generate_task_json (fun i => .ok sampleAnswerTD) "d" "N" "R" "k" "m"
        none ⟨[("d||N||R||m", recTD)], 1⟩ =
      (.ok recTD, none, ⟨[("d||N||R||m", recTD)], 1⟩) := by
  have h1 : Test7.generate_task_json (fun i => .ok sampleAnswerTD) "d" "N" "R"
      "k" "m" (some []) ⟨[], 0⟩ =
      (.ok recTD, some [(Json.str "T", Json.str "D")],
       ⟨[("d||N||R||m", recTD)], 1⟩) := by rfl
  exact ⟨h1, C1_second_call_cached (fun i => .ok sampleAnswerTD) "d" "d" "N" "R"
    "k" "k" "m" (some []) none (some [(Json.str "T", Json.str "D")])
    ⟨[], 0⟩ ⟨[("d||N||R||m", recTD)], 1⟩ recTD rfl h1⟩

/-- C10: в расширенном варианте при попадании в кэш `generate_task_json`
немедленно возвращает кэшированную запись, а множество used_titles и всё
состояние остаются неизменными: пара (title, description) не добавляется,
суффикс дедупликации не применяется, сетевой вызов не выполняется. -/
theorem C10_cache_hit_frame (remote : Nat → Except String String)
    (doc n r k m : String) (used : Option (List (Json × Json)))
    (st : Test7.Store) (rec : Test7.Record)
    (h : getKey st.cache (cache_key doc n r m) = some rec) :
    Test7.generate_task_json remote doc n r k m used st = (.ok rec, used, st) :=
  Test7.generate_cache_hit remote doc n r k m used st rec h

/-- Свидетельство C10: попадание в кэш на конкретном состоянии — used_titles
и состояние возвращаются без изменений. -/
theorem C10_witness :
    Test7.generate_task_json (fun i => .ok sampleAnswerTD) "d" "N" "R" "k" "m"
        (some [(Json.str "A", Json.str "B")]) ⟨[("d||N||R||m", recTD)], 3⟩ =
      (.ok recTD, some [(Json.str "A", Json.str "B")],
       ⟨[("d||N||R||m", recTD)], 3⟩) :=
  C10_cache_hit_frame (fun i => .ok sampleAnswerTD) "d" "N" "R" "k" "m"
    (some [(Json.str "A", Json.str "B")]) ⟨[("d||N||R||m", recTD)], 3⟩ recTD rfl

/-- C2: для любого разобранного ответа-объекта (какими бы ни были его поля
role, executor, author) нормализованная запись имеет
executor = имя студента, role = локализованная роль, author = "AI". -/
theorem C2_forced_identity_fields (kvs : List (String × Json)) (n r : String)
    (out : List (String × Json))
    (h : normalize_json_result (Json.obj kvs) n r = .ok out) :
    getKey out "executor" = some (Json.str n) ∧
    getKey out "role" = some (Json.str r) ∧
    getKey out "author" = some (Json.str "AI") := by
  obtain ⟨kvs0, hobj, hout⟩ := Test7.normalize_ok_inv _ _ _ _ h
  injection hobj with he
  subst he
  subst hout
  exact ⟨normalizeObj_executor _ _ _, normalizeObj_role _ _ _,
    normalizeObj_author _ _ _⟩

/-- Свидетельство C2: ответ с «чужими» значениями role/executor/author
нормализуется в запись с принудительными значениями. -/
theorem C2_witness :
    getKey outC2 "executor" = some (Json.str "Иван Иванов") ∧
    getKey outC2 "role" = some (Json.str "Аналитик") ∧
    getKey outC2 "author" = some (Json.str "AI") :=
  C2_forced_identity_fields
    [("executor", Json.str "hacker"), ("role", Json.num 5), ("author", Json.null)]
    "Иван Иванов" "Аналитик" outC2 rfl

/-- C3: в обоих вариантах пакетный цикл обрабатывает студентов в порядке
реестра, выдаёт по одному исходу на строку (сбой одного студента не
прерывает пакет), results — это успешные исходы в порядке реестра без
сбойных строк, errors — сбойные, и
len(results) + len(errors) = len(students). -/
theorem C3_batch_partition_order (remote : Nat → Except String String)
    (doc : String) (students : List (String × String)) (k m : String)
    (used : List (Json × Json)) (st : Test7.Store) (calls : Nat) :
    (Test7.runBatch remote doc students k m used st).1 =
      (Test7.batchOutcomes remote doc students k m used st).filterMap okOf ∧
    (Test7.runBatch remote doc students k m used st).2.1 =
      (Test7.batchOutcomes remote doc students k m used st).filterMap errOf ∧
    (Test7.batchOutcomes remote doc students k m used st).length =
      students.length ∧
    (Test7.runBatch remote doc students k m used st).1.length +
      (Test7.runBatch remote doc students k m used st).2.1.length =
      students.length ∧
    (Test5.runBatch remote doc students k m calls).1 =
      (Test5.batchOutcomes remote doc students k m calls).filterMap okOf ∧
    (Test5.runBatch remote doc students k m calls).2.1 =
      (Test5.batchOutcomes remote doc students k m calls).filterMap errOf ∧
    (Test5.batchOutcomes remote doc students k m calls).length =
      students.length ∧
    (Test5.runBatch remote doc students k m calls).1.length +
      (Test5.runBatch remote doc students k m calls).2.1.length =
      students.length := by
  obtain ⟨e1, e2⟩ := Test7.runBatch_eq_outcomes remote doc students k m used st
  obtain ⟨f1, f2⟩ := Test5.runBatch_eq_outcomes5 remote doc students k m calls
  refine ⟨e1, e2, Test7.batchOutcomes_length remote doc students k m used st,
    ?_, f1, f2, Test5.batchOutcomes_length5 remote doc students k m calls, ?_⟩
  · rw [e1, e2, length_filterMap_ok_err,
      Test7.batchOutcomes_length remote doc students k m used st]
  · rw [f1, f2, length_filterMap_ok_err,
      Test5.batchOutcomes_length5 remote doc students k m calls]

/-- C4: на примере из спецификации (JSON-объект, окружённый прозой)
скобочное извлечение расширенного варианта выдаёт первый объект в фигурных
скобках, разбор успешен и запись возвращается; простой вариант на том же
входе падает с ошибкой генерации, так как требует голого JSON. -/
theorem C4_prose_wrapped_json :
    extract_json_from_text proseAnswer = proseObject ∧
    json_loads proseObject =
      .ok (Json.obj [("title", Json.str "X"), ("description", Json.str "Y")]) ∧
    Test7.generate_task_json (fun i => .ok proseAnswer) "doc" "Иван" "Аналитик"
        "k" "mistral-small" (some []) ⟨[], 0⟩ =
      (.ok recXY, some [(Json.str "X", Json.str "Y")],
       ⟨[(cache_key "doc" "Иван" "Аналитик" "mistral-small", recXY)], 1⟩) ∧
    (∃ e, (Test5.generate_task_json (fun i => .ok proseAnswer) "doc" "Иван"
        "Аналитик" "k" "mistral-small" 0).1 = .error e) :=
  ⟨rfl, rfl, rfl, ⟨_, rfl⟩⟩

/-- C5: в расширенном варианте для двух студентов одного пакета, чьи
нормализованные ответы несут одинаковую пару (title, description), у
записи второго студента к заголовку дописывается его роль в квадратных
скобках, а после обоих вызовов множество used_titles содержит две
различные пары (title, description). -/
theorem C5_dedup_suffix (remote : Nat → Except String String)
    (doc n1 r1 n2 r2 k m : String) (st : Test7.Store)
    (a1 a2 : String) (j1 j2 : Json) (out1 out2 : Test7.Record) (t d : String)
    (hc1 : getKey st.cache (cache_key doc n1 r1 m) = none)
    (hc2 : getKey st.cache (cache_key doc n2 r2 m) = none)
    (hkk : cache_key doc n2 r2 m ≠ cache_key doc n1 r1 m)
    (hr1 : remote st.calls = .ok a1)
    (hp1 : json_loads (extract_json_from_text (pyStrip a1)) = .ok j1)
    (hn1 : normalize_json_result j1 n1 r1 = .ok out1)
    (ht1 : getKey out1 "title" = some (Json.str t))
    (hd1 : getKey out1 "description" = some (Json.str d))
    (hr2 : remote (st.calls + 1) = .ok a2)
    (hp2 : json_loads (extract_json_from_text (pyStrip a2)) = .ok j2)
    (hn2 : normalize_json_result j2 n2 r2 = .ok out2)
    (ht2 : getKey out2 "title" = some (Json.str t))
    (hd2 : getKey out2 "description" = some (Json.str d)) :
    ∃ st1 st2,
      Test7.generate_task_json remote doc n1 r1 k m (some []) st =
        (.ok out1, some [(Json.str t, Json.str d)], st1) ∧
      Test7.generate_task_json remote doc n2 r2 k m
          (some [(Json.str t, Json.str d)]) st1 =
        (.ok (setKey out2 "title" (Json.str (t ++ " [" ++ r2 ++ "]"))),
         some [(Json.str t, Json.str d),
               (Json.str (t ++ " [" ++ r2 ++ "]"), Json.str d)], st2) ∧
      getKey (setKey out2 "title" (Json.str (t ++ " [" ++ r2 ++ "]")))
          "title" = some (Json.str (t ++ " [" ++ r2 ++ "]")) ∧
      (Json.str t, Json.str d) ≠
        (Json.str (t ++ " [" ++ r2 ++ "]"), Json.str d) := by
  have g1 := Test7.generate_fresh_not_mem remote doc n1 r1 k m [] st a1 j1 out1
    (Json.str t) (Json.str d) hc1 hr1 hp1 hn1 ht1 hd1 rfl
  simp only [List.nil_append] at g1
  refine ⟨⟨setKey st.cache (cache_key doc n1 r1 m) out1, st.calls + 1⟩,
    ⟨setKey (setKey st.cache (cache_key doc n1 r1 m) out1)
        (cache_key doc n2 r2 m)
        (setKey out2 "title" (Json.str (t ++ " [" ++ r2 ++ "]"))),
     st.calls + 1 + 1⟩,
    g1, ?_, getKey_setKey_self _ _ _, ?_⟩
  case _ =>
    have hc2s : getKey (setKey st.cache (cache_key doc n1 r1 m) out1)
        (cache_key doc n2 r2 m) = none := by
      rw [getKey_setKey_ne _ _ _ _ (Ne.symm hkk)]
      exact hc2
    have hmem : pairMem (Json.str t, Json.str d)
        [(Json.str t, Json.str d)] = true := by
      simp [pairMem, eqb_str]
    have g2 := Test7.generate_fresh_mem remote doc n2 r2 k m
      [(Json.str t, Json.str d)]
      ⟨setKey st.cache (cache_key doc n1 r1 m) out1, st.calls + 1⟩
      a2 j2 out2 (Json.str t) (Json.str d) hc2s hr2 hp2 hn2 ht2 hd2 hmem
    simp only [pyStr] at g2
    have hsadd : setAdd [(Json.str t, Json.str d)]
        (Json.str (t ++ " [" ++ r2 ++ "]"), Json.str d) =
        [(Json.str t, Json.str d),
         (Json.str (t ++ " [" ++ r2 ++ "]"), Json.str d)] := by
      have hne : ((t ++ " [" ++ r2 ++ "]") == t) = false := by
        rw [beq_eq_false_iff_ne]
        exact Ne.symm (title_suffix_ne t r2)
      simp [setAdd, pairMem, eqb_str, hne]
    rw [hsadd] at g2
    exact g2
  case _ =>
    intro hEq
    have hfst : Json.str t = Json.str (t ++ " [" ++ r2 ++ "]") :=
      congrArg Prod.fst hEq
    injection hfst with hts
    exact title_suffix_ne t r2 hts

/-- Свидетельство C5: один и тот же ответ модели для Ивана (Аналитик) и
Марии (Тестировщик) — заголовок второй записи получает суффикс
" [Тестировщик]", множество used_titles содержит две различные пары. -/
theorem C5_witness :
    ∃ st1 st2,
      Test7.generate_task_json (fun i => .ok dupAnswer) "d" "Иван" "Аналитик"
          "k" "m" (some []) ⟨[], 0⟩ =
        (.ok dupRec1,
         some [(Json.str "Собрать требования", Json.str "Опис")], st1) ∧
      Test7.generate_task_json (fun i => .ok dupAnswer) "d" "Мария"
          "Тестировщик" "k" "m"
          (some [(Json.str "Собрать требования", Json.str "Опис")]) st1 =
        (.ok (setKey dupRec2 "title"
            (Json.str ("Собрать требования" ++ " [" ++ "Тестировщик" ++ "]"))),
         some [(Json.str "Собрать требования", Json.str "Опис"),
               (Json.str ("Собрать требования" ++ " [" ++ "Тестировщик" ++ "]"),
                Json.str "Опис")], st2) ∧
      getKey (setKey dupRec2 "title"
          (Json.str ("Собрать требования" ++ " [" ++ "Тестировщик" ++ "]")))
          "title" =
        some (Json.str ("Собрать требования" ++ " [" ++ "Тестировщик" ++ "]")) ∧
      (Json.str "Собрать требования", Json.str "Опис") ≠
        (Json.str ("Собрать требования" ++ " [" ++ "Тестировщик" ++ "]"),
         Json.str "Опис") :=
  C5_dedup_suffix (fun i => .ok dupAnswer) "d" "Иван" "Аналитик" "Мария"
    "Тестировщик" "k" "m" ⟨[], 0⟩ dupAnswer dupAnswer dupJson dupJson
    dupRec1 dupRec2 "Собрать требования" "Опис" rfl rfl (by decide) rfl rfl
    rfl rfl rfl rfl rfl rfl rfl rfl

/-- C6: для любого разобранного ответа-объекта статус нормализованной
записи лежит в \x7bnew, in_progress, completed, cancelled\x7d, причём
отсутствующий или внешний к перечислению статус сбрасывается в "new";
приоритет лежит в \x7blow, medium, high, critical\x7d, причём отсутствующий
или внешний приоритет сбрасывается в "medium". -/
theorem C6_status_priority_enum (kvs : List (String × Json)) (n r : String)
    (out : List (String × Json))
    (h : normalize_json_result (Json.obj kvs) n r = .ok out) :
    (∃ s, getKey out "status" = some (Json.str s) ∧
      STATUS_CHOICES.contains s = true) ∧
    (∃ p, getKey out "priority" = some (Json.str p) ∧
      PRIORITY_CHOICES.contains p = true) ∧
    (inChoices (getKey kvs "status") STATUS_CHOICES = false →
      getKey out "status" = some (Json.str "new")) ∧
    (inChoices (getKey kvs "priority") PRIORITY_CHOICES = false →
      getKey out "priority" = some (Json.str "medium")) := by
  obtain ⟨kvs0, hobj, hout⟩ := Test7.normalize_ok_inv _ _ _ _ h
  injection hobj with he
  subst he
  subst hout
  refine ⟨normalizeObj_status_mem _ _ _, normalizeObj_priority_mem _ _ _,
    ?_, ?_⟩
  · intro hf
    rw [normalizeObj_status,
      if_neg (show ¬ inChoices (getKey kvs "status") STATUS_CHOICES = true by
        simp [hf])]
  · intro hf
    rw [normalizeObj_priority,
      if_neg (show ¬ inChoices (getKey kvs "priority") PRIORITY_CHOICES = true by
        simp [hf])]

/-- Свидетельство C6: статус "Todo" (вне перечисления) и числовой приоритет
сбрасываются в "new" и "medium". -/
theorem C6_witness :
    getKey outC6 "status" = some (Json.str "new") ∧
    getKey outC6 "priority" = some (Json.str "medium") ∧
    STATUS_CHOICES.contains "new" = true ∧
    PRIORITY_CHOICES.contains "medium" = true := by
  have H := C6_status_priority_enum
    [("status", Json.str "Todo"), ("priority", Json.num 3)] "N" "R" outC6 rfl
  exact ⟨H.2.2.1 rfl, H.2.2.2 rfl, by decide, by decide⟩

/-- C7: для любых строковых title/description разобранного ответа (в том
числе со встроенными переводами строк) нормализованные title/description
получаются заменой переводов строк пробелами с обрезкой краёв и не
содержат ни одного символа перевода строки. -/
theorem C7_no_raw_newlines (kvs : List (String × Json)) (n r : String)
    (out : List (String × Json))
    (h : normalize_json_result (Json.obj kvs) n r = .ok out) :
    (∀ s, getKey kvs "title" = some (Json.str s) →
      getKey out "title" = some (Json.str (cleanLine s)) ∧
      '\n' ∉ (cleanLine s).data ∧ '\r' ∉ (cleanLine s).data) ∧
    (∀ s, getKey kvs "description" = some (Json.str s) →
      getKey out "description" = some (Json.str (cleanLine s)) ∧
      '\n' ∉ (cleanLine s).data ∧ '\r' ∉ (cleanLine s).data) := by
  obtain ⟨kvs0, hobj, hout⟩ := Test7.normalize_ok_inv _ _ _ _ h
  injection hobj with he
  subst he
  subst hout
  constructor
  · intro s hs
    rw [normalizeObj_title, hs]
    exact ⟨rfl, (cleanLine_no_newline s).1, (cleanLine_no_newline s).2⟩
  · intro s hs
    rw [normalizeObj_description, hs]
    exact ⟨rfl, (cleanLine_no_newline s).1, (cleanLine_no_newline s).2⟩

/-- Свидетельство C7: title "a\nb" и description "c\r\nd" нормализуются в
"a b" и "c  d" без переводов строк. -/
theorem C7_witness :
    getKey outC7 "title" = some (Json.str (cleanLine "a\nb")) ∧
    '\n' ∉ (cleanLine "a\nb").data ∧ '\r' ∉ (cleanLine "a\nb").data ∧
    getKey outC7 "description" = some (Json.str (cleanLine "c\r\nd")) ∧
    '\n' ∉ (cleanLine "c\r\nd").data ∧ '\r' ∉ (cleanLine "c\r\nd").data ∧
    cleanLine "a\nb" = "a b" ∧ cleanLine "c\r\nd" = "c  d" := by
  have H := C7_no_raw_newlines
    [("title", Json.str "a\nb"), ("description", Json.str "c\r\nd")]
    "N" "R" outC7 rfl
  obtain ⟨h1, h2, h3⟩ := H.1 "a\nb" rfl
  obtain ⟨h4, h5, h6⟩ := H.2 "c\r\nd" rfl
  exact ⟨h1, h2, h3, h4, h5, h6, by decide, by decide⟩

/-- Контрпример к C8: в расширенном варианте вызов генератора без множества
used_titles (значение по умолчанию None) на ответе `\x7b\x7d` возвращает
запись БЕЗ полей title и description — у возвращённой записи присутствуют
не все семь обязательных полей. -/
theorem C8_counterexample :
    Test7.generate_task_json (fun i => .ok "\x7b\x7d") "d" "N" "R" "k" "m"
        none ⟨[], 0⟩ =
      (.ok recND, none, ⟨[("d||N||R||m", recND)], 1⟩) ∧
    hasKey recND "title" = false ∧ hasKey recND "description" = false :=
  ⟨rfl, rfl, rfl⟩

/-- C8 (уточнённая формулировка): простой вариант всегда возвращает запись
со всеми шестью обязательными полями; расширенный вариант гарантирует все
семь полей у записи, полученной свежим (некэшированным) вызовом с
переданным множеством used_titles — при used_titles = None поля
title/description могут отсутствовать (контрпример выше). -/
theorem C8_amended_fields (remote : Nat → Except String String)
    (doc n r k m : String) :
    (∀ calls c2 j, Test5.generate_task_json remote doc n r k m calls =
        (.ok j, c2) →
      ∃ kvs, j = Json.obj kvs ∧
        hasKey kvs "title" = true ∧ hasKey kvs "description" = true ∧
        hasKey kvs "status" = true ∧ hasKey kvs "role" = true ∧
        hasKey kvs "executor" = true ∧ hasKey kvs "author" = true) ∧
    (∀ used0 used' st st' rec,
      getKey st.cache (cache_key doc n r m) = none →
      Test7.generate_task_json remote doc n r k m (some used0) st =
        (.ok rec, used', st') →
      hasKey rec "title" = true ∧ hasKey rec "description" = true ∧
      hasKey rec "status" = true ∧ hasKey rec "priority" = true ∧
      hasKey rec "role" = true ∧ hasKey rec "executor" = true ∧
      hasKey rec "author" = true) := by
  constructor
  · intro calls c2 j h
    obtain ⟨raw, kvs, _, _, hj, hall, _⟩ :=
      Test5.generate_ok_inv remote doc n r k m calls c2 j h
    simp only [List.all_cons, List.all_nil, Bool.and_eq_true,
      Bool.and_true] at hall
    exact ⟨kvs, hj, hall.1, hall.2.1, hall.2.2.1, hall.2.2.2.1,
      hall.2.2.2.2.1, hall.2.2.2.2.2⟩
  · intro used0 used' st st' rec hcm h
    exact Test7.generate_ok_keys remote doc n r k m used0 used' st st' rec hcm h

/-- Свидетельство C8: простой вариант на полном ответе возвращает объект со
всеми шестью полями; свежий вызов расширенного варианта с used_titles
возвращает запись со всеми семью полями. -/
theorem C8_amended_witness :
    (∃ kvs, objDone = Json.obj kvs ∧
      hasKey kvs "title" = true ∧ hasKey kvs "description" = true ∧
      hasKey kvs "status" = true ∧ hasKey kvs "role" = true ∧
      hasKey kvs "executor" = true ∧ hasKey kvs "author" = true) ∧
    (hasKey rec7Done "title" = true ∧ hasKey rec7Done "description" = true ∧
     hasKey rec7Done "status" = true ∧ hasKey rec7Done "priority" = true ∧
     hasKey rec7Done "role" = true ∧ hasKey rec7Done "executor" = true ∧
     hasKey rec7Done "author" = true) := by
  have H := C8_amended_fields (fun i => .ok fullAnswerDone) "d" "N" "R" "k" "m"
  exact ⟨H.1 0 1 objDone rfl,
    H.2 [] (some [(Json.str "T", Json.str "D")]) ⟨[], 0⟩
      ⟨[("d||N||R||m", rec7Done)], 1⟩ rec7Done rfl rfl⟩

/-- Контрпример к C9: простой вариант не принуждает статус к "Todo" — на
ответе со статусом "Done" (и всеми шестью полями) генератор возвращает
запись со статусом "Done". -/
theorem C9_counterexample :
    Test5.generate_task_json (fun i => .ok fullAnswerDone) "d" "N" "R" "k" "m"
        0 = (.ok objDone, 1) ∧
    (∃ kvs, objDone = Json.obj kvs ∧
      getKey kvs "status" = some (Json.str "Done")) ∧
    Json.str "Done" ≠ Json.str "Todo" := by
  refine ⟨rfl, ⟨_, rfl, rfl⟩, ?_⟩
  intro h
  injection h with h2
  exact absurd h2 (by decide)

/-- C9 (уточнённая формулировка): простой вариант возвращает разобранный
ответ модели без изменений (после проверки наличия полей); в частности,
статус записи равен статусу из сырого ответа — литерал "Todo" лишь
запрашивается в промпте, но кодом не навязывается. -/
theorem C9_amended_status_passthrough (remote : Nat → Except String String)
    (doc n r k m : String) (calls c2 : Nat) (j : Json)
    (h : Test5.generate_task_json remote doc n r k m calls = (.ok j, c2)) :
    ∃ raw kvs, remote calls = .ok raw ∧
      json_loads (pyStrip raw) = .ok (Json.obj kvs) ∧ j = Json.obj kvs := by
  obtain ⟨raw, kvs, h1, h2, h3, _, _⟩ :=
    Test5.generate_ok_inv remote doc n r k m calls c2 j h
  exact ⟨raw, kvs, h1, h2, h3⟩

/-- Свидетельство C9 (уточнённой формулировки) на конкретном входе. -/
theorem C9_amended_witness :
    ∃ raw kvs,
      (fun i : Nat => (Except.ok fullAnswerDone : Except String String)) 0 =
        .ok raw ∧
      json_loads (pyStrip raw) = .ok (Json.obj kvs) ∧
      objDone = Json.obj kvs :=
  C9_amended_status_passthrough (fun i => .ok fullAnswerDone) "d" "N" "R"
    "k" "m" 0 1 objDone rfl
